import Mathlib

/-!
Verification of the quantum2017 subscription/user-management layer.

The development shallowly embeds the MySQL-backed data layer (db-auth),
the server actions and the admin-login route of the repository.  Tables
are lists of rows; the MySQL unique keys (users.email, users PRIMARY KEY,
subscriptions unique_active_subscription over (user_id, status),
packages.name, primary keys) are modelled by explicit duplicate checks on
insert/update that fail with a duplicate-entry error, exactly as InnoDB
rejects the statement.  External collaborators are parameters:
  - bcrypt hashing/compare: an arbitrary function hf / vp,
  - the JWT verifier: an arbitrary function vj returning an optional payload,
  - the JWT signer: an arbitrary function cj,
  - JSON.parse: an arbitrary partial function parse into a JSON value type.
Enumerated columns (role, plan, status) are carried as strings, matching
the JavaScript runtime representation.  Timestamp bookkeeping columns that
no verified property observes (created_at / updated_at / last_login /
last_activity on users, admins and sessions, start_date / end_date on
subscriptions) are omitted from the row types; the statements that touch
only those columns become no-ops of the model.  Every operation returns
the post-state together with an Except value, so the state reached by a
request that throws midway is explicit.
-/

namespace Quantum

/-- Error values surfaced by the data layer and the actions.  Each
constructor corresponds to one thrown error of the source: dupEntry is the
raw mysql ER_DUP_ENTRY rejection (the ConflictingSubscription of the spec
taxonomy when raised by the subscriptions unique key), emailExists is the
message "Email already exists", weakPassword is "Password must be at least
6 characters", notFoundOrDenied is "Subscription not found or access
denied", noToken is "No token provided", unauthorized is "Unauthorized or
insufficient permissions", undefinedBindParam models mysql2 rejecting an
undefined bind parameter when a null JWT payload lets an undefined userId
reach a query, alreadySeeded n is "Database already has n package(s)...",
and packageExists is the duplicate-package message of createPackage. -/
inductive Err where
  | dupEntry
  | emailExists
  | weakPassword
  | notFoundOrDenied
  | noToken
  | unauthorized
  | undefinedBindParam
  | alreadySeeded (n : Nat)
  | packageExists (name : String)
deriving Repr, DecidableEq

/-- Row of the users table (schema part_000): id PRIMARY KEY, email UNIQUE,
password_hash, name, role, plan, status.  Timestamp columns omitted. -/
structure UserRow where
  id : String
  email : String
  password_hash : String
  name : String
  role : String
  plan : String
  status : String
deriving Repr, DecidableEq

/-- Row of the separate admins table (admin_schema.sql): id PRIMARY KEY,
email UNIQUE, password_hash, name, role, status. -/
structure AdminRow where
  id : String
  email : String
  password_hash : String
  name : String
  role : String
  status : String
deriving Repr, DecidableEq

/-- Row of the subscriptions table: id PRIMARY KEY, user_id, plan, status,
renewal_date (stored as the SQL DATETIME string the code writes).
UNIQUE KEY unique_active_subscription (user_id, status). -/
structure SubRow where
  id : String
  user_id : String
  plan : String
  status : String
  renewal_date : String
deriving Repr, DecidableEq

/-- Row of the user_sessions table: id PRIMARY KEY, user_id, session_token
UNIQUE, expires_at (modelled as epoch seconds). -/
structure SessionRow where
  id : String
  user_id : String
  session_token : String
  expires_at : Int
deriving Repr, DecidableEq

/-- Row of the packages table: id PRIMARY KEY, name UNIQUE, description,
price, currency, features (the stored serialized string, NULLable), active,
display_order, created_by, created_at (epoch seconds, used by ORDER BY). -/
structure PackageRow where
  id : String
  name : String
  description : Option String
  price : Int
  currency : String
  features : Option String
  active : Bool
  display_order : Int
  created_by : Option String
  created_at : Int
deriving Repr, DecidableEq

/-- Row of the audit_logs table; the changes JSON payload and ip column are
omitted (opaque, observed by no verified property). -/
structure AuditRow where
  user_id : Option String
  action : String
  entity_type : Option String
  entity_id : Option String
deriving Repr, DecidableEq

/-- The database state: one list per table. -/
structure Db where
  users : List UserRow
  admins : List AdminRow
  subscriptions : List SubRow
  sessions : List SessionRow
  packages : List PackageRow
  audit : List AuditRow
deriving Repr, DecidableEq

/-- Payload of a verified JWT as produced by createJWT: userId, email, role. -/
structure JwtPayload where
  userId : String
  email : String
  role : String
deriving Repr, DecidableEq

-- ---------------------------------------------------------------------
-- Date model: the JavaScript Date fields used by createSubscription.
-- month is 0-based as returned by getMonth().
-- ---------------------------------------------------------------------

/-- UTC calendar fields of a JavaScript Date (month 0-based). -/
structure DateTime where
  year : Nat
  month : Nat
  day : Nat
  hour : Nat
  minute : Nat
  second : Nat
deriving Repr, DecidableEq

/-- Gregorian leap-year rule. -/
def isLeap (y : Nat) : Bool :=
  (y % 4 == 0 && y % 100 != 0) || y % 400 == 0

/-- Number of days of 0-based month m in year y. -/
def daysInMonth (y m : Nat) : Nat :=
  if m == 1 then (if isLeap y then 29 else 28)
  else if m == 3 || m == 5 || m == 8 || m == 10 then 30
  else 31

/-- Successor month with year rollover (0-based months). -/
def nextMonth (y m : Nat) : Nat × Nat :=
  if m == 11 then (y + 1, 0) else (y, m + 1)

/-- Semantics of renewalDate.setMonth(renewalDate.getMonth() + 1) on a
JavaScript Date: the month index is incremented and a day-of-month that
overflows the target month rolls over into the following month (the Date
normalizes the overflow through its internal timestamp). -/
def jsAddOneMonth (d : DateTime) : DateTime :=
  let ym := nextMonth d.year d.month
  if d.day ≤ daysInMonth ym.1 ym.2 then
    ⟨ym.1, ym.2, d.day, d.hour, d.minute, d.second⟩
  else
    let ym2 := nextMonth ym.1 ym.2
    ⟨ym2.1, ym2.2, d.day - daysInMonth ym.1 ym.2, d.hour, d.minute, d.second⟩

/-- Definition following the words of the spec: "renewal date computed as
creation time + 1 calendar month".  The month index is incremented and the
day is kept, clamped to the length of the target month (the usual calendar
reading of adding one month to a month-end date). -/
def specAddCalendarMonth (d : DateTime) : DateTime :=
  let ym := nextMonth d.year d.month
  ⟨ym.1, ym.2, min d.day (daysInMonth ym.1 ym.2), d.hour, d.minute, d.second⟩

/-- Left-pad the decimal representation of n with zeros to width w. -/
def padNum (w n : Nat) : String :=
  let s := toString n
  String.mk (List.replicate (w - s.length) '0') ++ s

/-- Model of toSqlDatetime: date.toISOString().slice(0, 19) with the T
replaced by a space, i.e. "YYYY-MM-DD HH:MM:SS" over the UTC fields. -/
def toSqlDatetime (d : DateTime) : String :=
  padNum 4 d.year ++ "-" ++ padNum 2 (d.month + 1) ++ "-" ++ padNum 2 d.day ++
    " " ++ padNum 2 d.hour ++ ":" ++ padNum 2 d.minute ++ ":" ++ padNum 2 d.second

/-- Model of Date.toISOString() at whole-second granularity:
"YYYY-MM-DDTHH:MM:SS.000Z". -/
def toIsoString (d : DateTime) : String :=
  padNum 4 d.year ++ "-" ++ padNum 2 (d.month + 1) ++ "-" ++ padNum 2 d.day ++
    "T" ++ padNum 2 d.hour ++ ":" ++ padNum 2 d.minute ++ ":" ++ padNum 2 d.second ++ ".000Z"

-- ---------------------------------------------------------------------
-- Token helpers of the actions file (part_004).  vj is the external JWT
-- verifier: none models a null payload (invalid token).
-- ---------------------------------------------------------------------

/-- Model of getCurrentUserId: an empty token throws "No token provided";
otherwise the optional userId of the verified payload is returned.  When
verifyJWT yields null the JavaScript function falls through and returns
undefined, modelled as none. -/
def getCurrentUserId (vj : String → Option JwtPayload) (token : String) :
    Except Err (Option String) :=
  if token == "" then .error .noToken
  else .ok ((vj token).map (·.userId))

/-- Model of verifyAdminRole: an empty token throws "No token provided";
a payload whose role is admin or superadmin yields its userId; anything
else throws "Unauthorized or insufficient permissions". -/
def verifyAdminRole (vj : String → Option JwtPayload) (token : String) :
    Except Err String :=
  if token == "" then .error .noToken
  else
    match vj token with
    | some p =>
        if p.role == "admin" || p.role == "superadmin" then .ok p.userId
        else .error .unauthorized
    | none => .error .unauthorized

-- ---------------------------------------------------------------------
-- Audit logging (logAuditAction of part_001): the actor reference is
-- nulled when the provided userId does not resolve to a users row.
-- ---------------------------------------------------------------------

/-- Model of logAuditAction: appends an audit row; a userId that is not
present in the users table is stored as NULL. -/
def logAuditAction (db : Db) (userId : Option String) (action : String)
    (entityType entityId : Option String) : Db :=
  let uid :=
    match userId with
    | some u => if db.users.any (fun x => x.id == u) then some u else none
    | none => none
  { db with audit := db.audit ++ [⟨uid, action, entityType, entityId⟩] }

-- ---------------------------------------------------------------------
-- User operations (part_001, second revision: lines 386-424 etc.)
-- ---------------------------------------------------------------------

/-- Public profile returned by createUser: the User shape of the zod
schema.  It carries no password hash field. -/
structure UserPub where
  id : String
  email : String
  name : String
  role : String
  plan : String
  status : String
deriving Repr, DecidableEq

/-- Model of createUser (the revision that pins role to the string user):
hashes the password with the external hf, then inserts
(id, email, hash, name, role, plan, Active).  InnoDB rejects the INSERT
with ER_DUP_ENTRY when the PRIMARY KEY id or the UNIQUE email collides,
which the code maps to the error "Email already exists". -/
def createUser (hf : String → String) (db : Db) (freshId : String)
    (email password name : String) (plan? : Option String) :
    Db × Except Err UserPub :=
  let role := "user"
  let plan := plan?.getD "Starter"
  let passwordHash := hf password
  if db.users.any (fun u => u.id == freshId || u.email == email) then
    (db, .error .emailExists)
  else
    ({ db with users := db.users ++ [⟨freshId, email, passwordHash, name, role, plan, "Active"⟩] },
     .ok ⟨freshId, email, name, role, plan, "Active"⟩)

/-- Model of the UPDATE of updateUser when called with a plan field only
(the shape both actions use): sets plan on the rows whose id matches. -/
def updateUserPlan (db : Db) (id plan : String) : Db :=
  { db with users := db.users.map (fun u => if u.id == id then { u with plan := plan } else u) }

/-- Model of updatePassword: a new password of length below 6 throws
"Password must be at least 6 characters" (the !newPassword guard of the
source is subsumed: an empty string has length 0); otherwise the stored
hash of the matching user row is replaced by hf newPassword.  The
updated_at touch of the same UPDATE is not carried by the row type. -/
def updatePassword (hf : String → String) (db : Db) (userId newPassword : String) :
    Db × Except Err Unit :=
  if newPassword.length < 6 then (db, .error .weakPassword)
  else
    let users := db.users.map
      (fun u => if u.id == userId then { u with password_hash := hf newPassword } else u)
    ({ db with users := users }, .ok ())

-- ---------------------------------------------------------------------
-- Subscription operations
-- ---------------------------------------------------------------------

/-- Subscription shape returned to callers (id, plan, status, renewal_date
as an ISO string), per the zod SubscriptionSchema. -/
structure SubPub where
  id : String
  plan : String
  status : String
  renewal_date : String
deriving Repr, DecidableEq

/-- Model of getSubscription: first subscriptions row (LIMIT 1) of the
user with status Active, projected to the selected columns. -/
def getSubscription (db : Db) (userId : String) : Option SubPub :=
  (db.subscriptions.find? (fun s => s.user_id == userId && s.status == "Active")).map
    (fun s => ⟨s.id, s.plan, s.status, s.renewal_date⟩)

/-- Decidable check of the unique_active_subscription key: no two rows
share the same (user_id, status) pair. -/
def noDupUserStatus : List SubRow → Bool
  | [] => true
  | s :: rest =>
      !(rest.any (fun t => t.user_id == s.user_id && t.status == s.status)) &&
        noDupUserStatus rest

/-- Model of createSubscription: computes the renewal date by the
setMonth(+1) Date mutation, then INSERTs (id, user_id, plan, Active,
toSqlDatetime renewal).  InnoDB rejects the INSERT with ER_DUP_ENTRY when
the PRIMARY KEY id collides or when the (user_id, Active) pair already
exists under unique_active_subscription; the error propagates raw.  The
returned object carries the renewal date as toISOString(). -/
def createSubscription (db : Db) (freshId : String) (now : DateTime)
    (userId plan : String) : Db × Except Err SubPub :=
  let renewal := jsAddOneMonth now
  let row : SubRow := ⟨freshId, userId, plan, "Active", toSqlDatetime renewal⟩
  if db.subscriptions.any (fun s => s.id == freshId || (s.user_id == userId && s.status == "Active")) then
    (db, .error .dupEntry)
  else
    ({ db with subscriptions := db.subscriptions ++ [row] },
     .ok ⟨freshId, plan, "Active", toIsoString renewal⟩)

/-- Model of updateSubscription when called with a status field only (the
shape cancelSubscription uses): sets status on the row whose id matches.
InnoDB rejects the UPDATE with ER_DUP_ENTRY when the updated row would
collide with another row under unique_active_subscription (user_id,
status); in that case nothing is updated. -/
def updateSubscriptionStatus (db : Db) (subscriptionId status : String) :
    Db × Except Err Unit :=
  let subs := db.subscriptions.map
    (fun s => if s.id == subscriptionId then { s with status := status } else s)
  if noDupUserStatus subs then ({ db with subscriptions := subs }, .ok ())
  else (db, .error .dupEntry)

-- ---------------------------------------------------------------------
-- Server actions (part_004)
-- ---------------------------------------------------------------------

/-- Model of the activateSubscription action: resolves the userId from the
token, creates a new Active subscription row, advances the plan field of
the user, and logs the action. -/
def activateSubscription (vj : String → Option JwtPayload) (token planName : String)
    (freshId : String) (now : DateTime) (db : Db) : Db × Except Err SubPub :=
  match getCurrentUserId vj token with
  | .error e => (db, .error e)
  | .ok none => (db, .error .undefinedBindParam)
  | .ok (some userId) =>
    match createSubscription db freshId now userId planName with
    | (db1, .error e) => (db1, .error e)
    | (db1, .ok sub) =>
      let db2 := updateUserPlan db1 userId planName
      let db3 := logAuditAction db2 (some userId) "subscription_activated"
        (some "subscription") (some sub.id)
      (db3, .ok sub)

/-- Model of the cancelSubscription action: resolves the userId from the
token, fetches the Active subscription of that user, throws "Subscription
not found or access denied" unless its id equals subscriptionId, then
flips the status to Cancelled, resets the plan of the user to Starter and
logs the action. -/
def cancelSubscription (vj : String → Option JwtPayload) (token subscriptionId : String)
    (db : Db) : Db × Except Err Unit :=
  match getCurrentUserId vj token with
  | .error e => (db, .error e)
  | .ok none => (db, .error .undefinedBindParam)
  | .ok (some userId) =>
    match getSubscription db userId with
    | none => (db, .error .notFoundOrDenied)
    | some sub =>
      if sub.id != subscriptionId then (db, .error .notFoundOrDenied)
      else
        match updateSubscriptionStatus db subscriptionId "Cancelled" with
        | (db1, .error e) => (db1, .error e)
        | (db1, .ok _) =>
          let db2 := updateUserPlan db1 userId "Starter"
          (logAuditAction db2 (some userId) "subscription_cancelled"
            (some "subscription") (some subscriptionId), .ok ())

-- ---------------------------------------------------------------------
-- Session lookup (part_001)
-- ---------------------------------------------------------------------

/-- Model of getSessionByToken: SELECT id, user_id, expires_at FROM
user_sessions WHERE session_token = token AND expires_at > NOW(), first
row or none. -/
def getSessionByToken (db : Db) (sessionToken : String) (now : Int) :
    Option SessionRow :=
  db.sessions.find? (fun s => s.session_token == sessionToken && s.expires_at > now)

-- ---------------------------------------------------------------------
-- Admin login route (part_002)
-- ---------------------------------------------------------------------

/-- Account record as the login route sees it after the admins-first,
users-fallback lookup.  Admin rows have no plan column, so plan is none
for them. -/
structure LoginAcct where
  id : String
  email : String
  password_hash : String
  name : String
  role : String
  plan : Option String
  status : String
deriving Repr, DecidableEq

/-- Lookup of the login route: the admins table is consulted first, the
users table is the fallback. -/
def findLoginAcct (db : Db) (email : String) : Option LoginAcct :=
  match db.admins.find? (fun a => a.email == email) with
  | some a => some ⟨a.id, a.email, a.password_hash, a.name, a.role, none, a.status⟩
  | none =>
    (db.users.find? (fun u => u.email == email)).map
      (fun u => ⟨u.id, u.email, u.password_hash, u.name, u.role, some u.plan, u.status⟩)

/-- JSON response of the admin login route: either the user object with a
token and HTTP status 200, or an error message with its HTTP status. -/
inductive LoginResponse where
  | success (id email name role : String) (plan : Option String) (status : String)
      (token : String) (httpStatus : Nat)
  | failure (error : String) (httpStatus : Nat)
deriving Repr, DecidableEq

/-- Model of the admin login POST handler: missing (empty) email or
password is a 400; an email unknown to both tables answers the same
"Invalid email or password" 401 as a known email with a failing bcrypt
compare (the latter also appends an admin_login_failed audit row); a
non-admin role is a 403, a Cancelled account is a 403; otherwise a token
is signed (cj, external) and the user object is returned with 200.  The
last_login touch of the success path updates only an omitted timestamp
column. -/
def adminLoginPOST (vp : String → String → Bool) (cj : JwtPayload → String)
    (db : Db) (email password : String) : LoginResponse × Db :=
  if email == "" || password == "" then
    (.failure "Email and password are required" 400, db)
  else
    match findLoginAcct db email with
    | none => (.failure "Invalid email or password" 401, db)
    | some u =>
      if !(vp password u.password_hash) then
        (.failure "Invalid email or password" 401,
         logAuditAction db none "admin_login_failed" (some "user") (some u.id))
      else if !(u.role == "admin" || u.role == "superadmin") then
        (.failure "Not authorized as admin" 403,
         logAuditAction db (some u.id) "admin_login_forbidden" (some "user") (some u.id))
      else if u.status == "Cancelled" then
        (.failure "Account has been cancelled" 403, db)
      else
        (.success u.id u.email u.name u.role u.plan u.status
          (cj ⟨u.id, u.email, u.role⟩) 200,
         logAuditAction db (some u.id) "admin_login" (some "user") (some u.id))

-- ---------------------------------------------------------------------
-- Package catalog (part_001)
-- ---------------------------------------------------------------------

/-- JSON values as JSON.parse may return them (objects are not needed by
any stored feature payload the properties inspect). -/
inductive Jx where
  | nul
  | boolean (b : Bool)
  | num (n : Int)
  | str (s : String)
  | arr (elems : List Jx)
deriving Repr

/-- Package object returned by the package getters: the row spread with
the features column replaced by the decoded value. -/
structure PackageOut where
  id : String
  name : String
  description : Option String
  price : Int
  currency : String
  features : Jx
  active : Bool
  display_order : Int
  created_by : Option String
  created_at : Int
deriving Repr

/-- Decoding of the stored features column, shared verbatim by
getAllPackages, getPackageById and getPackageByName: a NULL column and an
empty string (both falsy in the if (pkg.features) guard) leave the empty
array; a parse success yields the parsed value; a parse failure is caught
and degrades to the one-element array holding the raw string.  The
function is total: no branch throws. -/
def decodeFeatures (parse : String → Option Jx) : Option String → Jx
  | none => .arr []
  | some raw =>
    if raw == "" then .arr []
    else
      match parse raw with
      | some v => v
      | none => .arr [.str raw]

/-- Spread of a package row with decoded features. -/
def decoratePackage (parse : String → Option Jx) (p : PackageRow) : PackageOut :=
  ⟨p.id, p.name, p.description, p.price, p.currency, decodeFeatures parse p.features,
   p.active, p.display_order, p.created_by, p.created_at⟩

/-- ORDER BY display_order ASC, created_at DESC as a total boolean order. -/
def pkgLe (a b : PackageRow) : Bool :=
  a.display_order < b.display_order ||
    (a.display_order == b.display_order && b.created_at ≤ a.created_at)

/-- Model of getAllPackages: optional active filter, ORDER BY
display_order ASC, created_at DESC, and the per-row feature decoding. -/
def getAllPackages (parse : String → Option Jx) (activeOnly : Bool) (db : Db) :
    List PackageOut :=
  let rows := if activeOnly then db.packages.filter (fun p => p.active) else db.packages
  (rows.mergeSort pkgLe).map (decoratePackage parse)

/-- Model of getPackageById: first row with the given id, decorated. -/
def getPackageById (parse : String → Option Jx) (db : Db) (id : String) :
    Option PackageOut :=
  (db.packages.find? (fun p => p.id == id)).map (decoratePackage parse)

/-- Escape of a character under JSON.stringify for string payloads
(backslash and double quote; control characters do not occur in the seeded
feature lists). -/
def jsonEscapeChar (c : Char) : String :=
  if c == '\\' then "\\\\" else if c == '"' then "\\\"" else String.singleton c

/-- Model of JSON.stringify on an array of strings. -/
def stringifyStringList (xs : List String) : String :=
  "[" ++ String.intercalate "," (xs.map (fun s => "\"" ++ String.join (s.toList.map jsonEscapeChar) ++ "\"")) ++ "]"

/-- Input record of createPackage. -/
structure CreatePkgData where
  name : String
  description : Option String
  price : Int
  currency : Option String
  features : Option (List String)
  display_order : Option Int
  created_by : Option String
deriving Repr, DecidableEq

/-- Model of createPackage: currency defaults to USD, display_order to 0,
features are stringified or NULL; description and created_by pass through
the JavaScript or-null coercion (an empty string becomes NULL).  The
INSERT is rejected with ER_DUP_ENTRY when the PRIMARY KEY id or the UNIQUE
name collides, mapped to the duplicate-package error.  The inserted row is
returned on success (the source returns the equivalent object). -/
def createPackage (db : Db) (freshId : String) (now : Int) (data : CreatePkgData) :
    Db × Except Err PackageRow :=
  let currency := match data.currency with | some c => if c == "" then "USD" else c | none => "USD"
  let displayOrder := data.display_order.getD 0
  let features := data.features.map stringifyStringList
  let description := match data.description with | some d => if d == "" then none else some d | none => none
  let createdBy := match data.created_by with | some c => if c == "" then none else some c | none => none
  let row : PackageRow :=
    ⟨freshId, data.name, description, data.price, currency, features, true, displayOrder, createdBy, now⟩
  if db.packages.any (fun p => p.id == freshId || p.name == data.name) then
    (db, .error (.packageExists data.name))
  else
    ({ db with packages := db.packages ++ [row] }, .ok row)

-- ---------------------------------------------------------------------
-- Default package seeding (part_004 action and scripts/seed-packages.js)
-- ---------------------------------------------------------------------

/-- Literal of one default package of the seed data. -/
structure SeedPkg where
  name : String
  description : String
  price : Int
  currency : String
  features : List String
  display_order : Int
deriving Repr, DecidableEq

/-- The three default packages, as written both in the action and in the
seed script. -/
def defaultPackages : List SeedPkg :=
  [⟨"Desktop Software",
    "Manage Yourself - Desktop Software for DIY traders with Community Access",
    4999, "₹",
    ["Desktop Software", "DIY", "Community Access", "Manage Yourself", "Local Execution"],
    0⟩,
   ⟨"Auto Server",
    "Fully Automated Server based execution for hands-free trading",
    5999, "₹",
    ["Fully Automated", "Server based Execution", "Priority Support", "24/7 Monitoring",
     "Execution Management"],
    1⟩,
   ⟨"Hybrid Plan",
    "Combination of Desktop Software and Server Execution",
    7999, "₹",
    ["Desktop Software", "Server Execution", "Advanced Analytics", "Priority Support",
     "API Access", "Custom Strategies"],
    2⟩]

/-- Sequential createPackage loop of the seeding action over the default
packages paired with their fresh ids; a failing insert stops the loop and
keeps the rows created so far (each INSERT commits on its own). -/
def seedLoop (now : Int) : Db → List (String × SeedPkg) → Db × Except Err (List PackageRow)
  | db, [] => (db, .ok [])
  | db, (i, pkg) :: rest =>
    match createPackage db i now
        ⟨pkg.name, some pkg.description, pkg.price, some pkg.currency,
         some pkg.features, some pkg.display_order, none⟩ with
    | (db1, .error e) => (db1, .error e)
    | (db1, .ok row) =>
      match seedLoop now db1 rest with
      | (db2, .error e) => (db2, .error e)
      | (db2, .ok rows) => (db2, .ok (row :: rows))

/-- Model of the seedDefaultPackagesAction: requires an admin token; a
non-empty catalog throws the already-seeded error before any insert;
otherwise the three default packages are created (ids i1, i2, i3 stand for
the three randomUUID calls) and the seeding is audit-logged. -/
def seedDefaultPackagesAction (vj : String → Option JwtPayload) (token : String)
    (i1 i2 i3 : String) (now : Int) (db : Db) : Db × Except Err Unit :=
  match verifyAdminRole vj token with
  | .error e => (db, .error e)
  | .ok userId =>
    if db.packages.length > 0 then
      (db, .error (.alreadySeeded db.packages.length))
    else
      match seedLoop now db (List.zip [i1, i2, i3] defaultPackages) with
      | (db1, .error e) => (db1, .error e)
      | (db1, .ok _) =>
        (logAuditAction db1 (some userId) "packages_seeded" (some "package") none, .ok ())

/-- Model of the standalone seed script (scripts/seed-packages.js): when
the packages table already holds rows it skips the seed and returns
normally (an idempotent no-op); on an empty table it inserts the default
packages directly (the script sets the same columns as the action, with
created_by absent, hence NULL). -/
def seedPackagesScript (i1 i2 i3 : String) (now : Int) (db : Db) :
    Db × Except Err Unit :=
  if db.packages.length > 0 then (db, .ok ())
  else
    match seedLoop now db (List.zip [i1, i2, i3] defaultPackages) with
    | (db1, .error e) => (db1, .error e)
    | (db1, .ok _) => (db1, .ok ())

-- ---------------------------------------------------------------------
-- Helper lemmas
-- ---------------------------------------------------------------------

@[simp] theorem updateUserPlan_subscriptions (db : Db) (id plan : String) :
    (updateUserPlan db id plan).subscriptions = db.subscriptions := rfl

@[simp] theorem updateUserPlan_users (db : Db) (id plan : String) :
    (updateUserPlan db id plan).users =
      db.users.map (fun u => if u.id == id then { u with plan := plan } else u) := rfl

@[simp] theorem logAuditAction_subscriptions (db : Db) (u : Option String)
    (a : String) (t e : Option String) :
    (logAuditAction db u a t e).subscriptions = db.subscriptions := rfl

@[simp] theorem logAuditAction_users (db : Db) (u : Option String)
    (a : String) (t e : Option String) :
    (logAuditAction db u a t e).users = db.users := rfl

-- ---------------------------------------------------------------------
-- Theorems
-- ---------------------------------------------------------------------

/-- C3: a stored opaque session whose expires_at is at or before the
current time is never returned by getSessionByToken; when every row
carrying the looked-up token has expired, the lookup yields none even
though the rows still exist in the table. -/
theorem getSessionByToken_rejects_expired (db : Db) (tok : String) (now : Int)
    (h : ∀ s ∈ db.sessions, s.session_token = tok → s.expires_at ≤ now) :
    getSessionByToken db tok now = none := by
  unfold getSessionByToken
  rw [List.find?_eq_none]
  intro s hs
  simp only [Bool.and_eq_true, beq_iff_eq, decide_eq_true_eq, not_and]
  intro htokeq
  exact fun hgt => absurd (h s hs htokeq) (not_le.mpr hgt)

/-- C3 witness: a session row that physically exists but expired exactly
at the current instant is not returned. -/
theorem getSessionByToken_rejects_expired_witness :
    getSessionByToken ⟨[], [], [], [⟨"sess1", "u1", "tokA", 100⟩], [], []⟩ "tokA" 100 = none :=
  getSessionByToken_rejects_expired _ "tokA" 100 (by decide)

/-- C5: updatePassword rejects every new password shorter than 6
characters (the empty string included) with the weak-password error and
leaves the database, in particular the stored hash, unchanged; for every
password of length at least 6 it succeeds and replaces the stored hash of
the addressed user by the hash of the new password. -/
theorem updatePassword_policy (hf : String → String) (db : Db)
    (userId newPassword : String) :
    (newPassword.length < 6 →
      updatePassword hf db userId newPassword = (db, .error .weakPassword))
    ∧ (6 ≤ newPassword.length →
      updatePassword hf db userId newPassword =
        ({ db with users := db.users.map (fun u => if u.id == userId then { u with password_hash := hf newPassword } else u) },
         .ok ())) := by
  constructor
  · intro h
    simp [updatePassword, h]
  · intro h
    simp [updatePassword, Nat.not_lt.mpr h]

/-- C5 witness: a 5-character password is rejected with the database
unchanged, and a 6-character password replaces the stored hash. -/
theorem updatePassword_policy_witness :
    (updatePassword (fun s => s ++ "#h") ⟨[⟨"u1", "a@x", "old", "A", "user", "Starter", "Active"⟩], [], [], [], [], []⟩ "u1" "pw123"
      = (⟨[⟨"u1", "a@x", "old", "A", "user", "Starter", "Active"⟩], [], [], [], [], []⟩, .error .weakPassword))
    ∧ (updatePassword (fun s => s ++ "#h") ⟨[⟨"u1", "a@x", "old", "A", "user", "Starter", "Active"⟩], [], [], [], [], []⟩ "u1" "pw1234"
      = (⟨[⟨"u1", "a@x", "pw1234#h", "A", "user", "Starter", "Active"⟩], [], [], [], [], []⟩, .ok ())) := by
  constructor
  · exact (updatePassword_policy (fun s => s ++ "#h") _ "u1" "pw123").1 (by decide)
  · have h := (updatePassword_policy (fun s => s ++ "#h")
      ⟨[⟨"u1", "a@x", "old", "A", "user", "Starter", "Active"⟩], [], [], [], [], []⟩ "u1" "pw1234").2 (by decide)
    rw [h]
    rfl

/-- C6 counterexample: at the month-end creation instant 2025-01-31
10:00:00 UTC, createSubscription (on an empty database, fresh id) stores
the renewal date 2025-03-03 10:00:00 — the setMonth(+1) rollover — while
creation time plus one calendar month is 2025-02-28 10:00:00; the stored
value is not the creation time plus one calendar month. -/
theorem createSubscription_monthEnd_cex :
    ((createSubscription ⟨[], [], [], [], [], []⟩ "sub1" ⟨2025, 0, 31, 10, 0, 0⟩ "u1" "Pro").1.subscriptions
      = [⟨"sub1", "u1", "Pro", "Active", "2025-03-03 10:00:00"⟩])
    ∧ toSqlDatetime (specAddCalendarMonth ⟨2025, 0, 31, 10, 0, 0⟩) = "2025-02-28 10:00:00"
    ∧ ("2025-03-03 10:00:00" : String) ≠ "2025-02-28 10:00:00" :=
  ⟨rfl, rfl, by decide⟩

/-- C6 (amended): createSubscription stores renewal_date = creation time
with the month index incremented and day overflow rolled into the
following month (the JavaScript setMonth semantics), serialized without
timezone as "YYYY-MM-DD HH:MM:SS"; whenever the creation day-of-month
exists in the following month this coincides with creation time plus one
calendar month. -/
theorem createSubscription_renewal (db : Db) (freshId : String) (now : DateTime)
    (userId plan : String)
    (hfresh : db.subscriptions.any (fun s => s.id == freshId || (s.user_id == userId && s.status == "Active")) = false) :
    createSubscription db freshId now userId plan =
      ({ db with subscriptions := db.subscriptions ++ [⟨freshId, userId, plan, "Active", toSqlDatetime (jsAddOneMonth now)⟩] },
       .ok ⟨freshId, plan, "Active", toIsoString (jsAddOneMonth now)⟩)
    ∧ (now.day ≤ daysInMonth (nextMonth now.year now.month).1 (nextMonth now.year now.month).2 →
       jsAddOneMonth now = specAddCalendarMonth now) := by
  constructor
  · simp [createSubscription, hfresh]
  · intro h
    unfold jsAddOneMonth specAddCalendarMonth
    simp [h, Nat.min_eq_left h]

/-- C6 witness: on 2025-03-15 (a day that exists in April) the stored
renewal date is exactly one calendar month later, 2025-04-15, and the two
month-addition semantics agree. -/
theorem createSubscription_renewal_witness :
    createSubscription ⟨[], [], [], [], [], []⟩ "sub9" ⟨2025, 2, 15, 8, 30, 0⟩ "u9" "Expert" =
      ({ users := [], admins := [], subscriptions := [⟨"sub9", "u9", "Expert", "Active", "2025-04-15 08:30:00"⟩], sessions := [], packages := [], audit := [] },
       .ok ⟨"sub9", "Expert", "Active" , "2025-04-15T08:30:00.000Z"⟩)
    ∧ jsAddOneMonth ⟨2025, 2, 15, 8, 30, 0⟩ = specAddCalendarMonth ⟨2025, 2, 15, 8, 30, 0⟩ := by
  have h := createSubscription_renewal ⟨[], [], [], [], [], []⟩ "sub9" ⟨2025, 2, 15, 8, 30, 0⟩ "u9" "Expert" (by decide)
  exact ⟨by rw [h.1]; rfl, h.2 (by decide)⟩

/-- C4: the admin login route answers an unknown email (absent from both
the admins and the users table) and a wrong password for a known email
with the same external failure: the body error "Invalid email or password"
and HTTP status 401, so the two internal cases are indistinguishable from
the response. -/
theorem adminLogin_enumeration_safe (vp : String → String → Bool)
    (cj : JwtPayload → String) (db1 db2 : Db) (e1 p1 e2 p2 : String)
    (u : LoginAcct)
    (he1 : e1 ≠ "") (hp1 : p1 ≠ "")
    (ha : db1.admins.find? (fun a => a.email == e1) = none)
    (hu : db1.users.find? (fun x => x.email == e1) = none)
    (he2 : e2 ≠ "") (hp2 : p2 ≠ "")
    (hacct : findLoginAcct db2 e2 = some u)
    (hpw : vp p2 u.password_hash = false) :
    (adminLoginPOST vp cj db1 e1 p1).1 = .failure "Invalid email or password" 401
    ∧ (adminLoginPOST vp cj db2 e2 p2).1 = (adminLoginPOST vp cj db1 e1 p1).1 := by
  have hfind1 : findLoginAcct db1 e1 = none := by
    unfold findLoginAcct
    rw [ha, hu]
    rfl
  have h1 : (adminLoginPOST vp cj db1 e1 p1).1 = .failure "Invalid email or password" 401 := by
    simp [adminLoginPOST, hfind1, he1, hp1]
  refine ⟨h1, ?_⟩
  rw [h1]
  simp [adminLoginPOST, hacct, he2, hp2, hpw]

/-- C4 witness: a concrete unknown-email attempt and a concrete
wrong-password attempt against a stored admin produce the identical
failure response. -/
theorem adminLogin_enumeration_safe_witness :
    ((adminLoginPOST (fun p h => p ++ "#h" == h) (fun _ => "tok")
        ⟨[], [], [], [], [], []⟩ "ghost@x.com" "whatever").1
      = .failure "Invalid email or password" 401)
    ∧ ((adminLoginPOST (fun p h => p ++ "#h" == h) (fun _ => "tok")
        ⟨[], [⟨"a1", "admin@x.com", "secret#h", "A", "admin", "Active"⟩], [], [], [], []⟩ "admin@x.com" "wrongpw").1
      = (adminLoginPOST (fun p h => p ++ "#h" == h) (fun _ => "tok")
        ⟨[], [], [], [], [], []⟩ "ghost@x.com" "whatever").1) :=
  adminLogin_enumeration_safe (fun p h => p ++ "#h" == h) (fun _ => "tok")
    ⟨[], [], [], [], [], []⟩
    ⟨[], [⟨"a1", "admin@x.com", "secret#h", "A", "admin", "Active"⟩], [], [], [], []⟩
    "ghost@x.com" "whatever" "admin@x.com" "wrongpw"
    ⟨"a1", "admin@x.com", "secret#h", "A", "admin", none, "Active"⟩
    (by decide) (by decide) rfl rfl (by decide) (by decide) rfl (by decide)

/-- Invariant of claim C1: no two subscription rows of the same user both
carry status Active, i.e. every user has at most one Active row. -/
def ActiveUnique (l : List SubRow) : Prop :=
  l.Pairwise (fun a b => ¬(a.user_id = b.user_id ∧ a.status = "Active" ∧ b.status = "Active"))

instance (l : List SubRow) : Decidable (ActiveUnique l) := by
  unfold ActiveUnique
  infer_instance

/-- Helper: the full (user_id, status) unique-key check implies the
at-most-one-Active invariant. -/
theorem activeUnique_of_noDupUserStatus (l : List SubRow)
    (h : noDupUserStatus l = true) : ActiveUnique l := by
  induction l with
  | nil => exact List.Pairwise.nil
  | cons s rest ih =>
    rw [noDupUserStatus, Bool.and_eq_true] at h
    refine List.Pairwise.cons ?_ (ih h.2)
    intro b hb
    rintro ⟨huid, hsact, hbact⟩
    have := h.1
    rw [Bool.not_eq_true', List.any_eq_false] at this
    exact this b hb (by simp [huid, hsact, hbact])

/-- C1: when the requesting user already has an Active subscription row,
activateSubscription fails with the duplicate-entry rejection of the
unique_active_subscription key (the ConflictingSubscription failure of the
spec taxonomy) and leaves the database unchanged, creating no second
Active row; the at-most-one-Active-row-per-user invariant is preserved by
the action unconditionally; and the only other mutator of subscription
rows, the status UPDATE, preserves the invariant as well, so the invariant
holds at all times. -/
theorem activateSubscription_conflict (vj : String → Option JwtPayload)
    (token planName freshId : String) (now : DateTime) (p : JwtPayload) (db : Db)
    (hvj : vj token = some p) (htok : token ≠ "") :
    (db.subscriptions.any (fun s => s.user_id == p.userId && s.status == "Active") = true →
      activateSubscription vj token planName freshId now db = (db, .error .dupEntry))
    ∧ (ActiveUnique db.subscriptions →
      ActiveUnique (activateSubscription vj token planName freshId now db).1.subscriptions)
    ∧ (ActiveUnique db.subscriptions → ∀ sid st,
      ActiveUnique ((updateSubscriptionStatus db sid st).1).subscriptions) := by
  have htok' : (token == "") = false := by
    simp [htok]
  refine ⟨?_, ?_, ?_⟩
  · intro hact
    have hany : db.subscriptions.any (fun s => s.id == freshId || (s.user_id == p.userId && s.status == "Active")) = true := by
      rw [List.any_eq_true] at hact ⊢
      obtain ⟨s, hs, hps⟩ := hact
      exact ⟨s, hs, by rw [hps]; simp⟩
    simp [activateSubscription, getCurrentUserId, htok', hvj, createSubscription, hany]
  · intro hinv
    cases hc : db.subscriptions.any (fun s => s.id == freshId || (s.user_id == p.userId && s.status == "Active")) with
    | true =>
      simpa [activateSubscription, getCurrentUserId, htok', hvj, createSubscription, hc] using hinv
    | false =>
      simp [activateSubscription, getCurrentUserId, htok', hvj, createSubscription, hc]
      rw [ActiveUnique, List.pairwise_append]
      refine ⟨hinv, List.pairwise_singleton _ _, ?_⟩
      intro a ha b hb
      rw [List.mem_singleton] at hb
      subst hb
      rintro ⟨hu, hastat, -⟩
      rw [List.any_eq_false] at hc
      exact (hc a ha) (by simp [hu, hastat])
  · intro hinv sid st
    cases hcheck : noDupUserStatus (db.subscriptions.map (fun s => if s.id == sid then { s with status := st } else s)) with
    | true =>
      have hrw : updateSubscriptionStatus db sid st =
          ({ db with subscriptions := db.subscriptions.map (fun s => if s.id == sid then { s with status := st } else s) }, .ok ()) := by
        unfold updateSubscriptionStatus
        dsimp only
        rw [hcheck]
        simp
      rw [hrw]
      exact activeUnique_of_noDupUserStatus _ hcheck
    | false =>
      have hrw : updateSubscriptionStatus db sid st = (db, .error .dupEntry) := by
        unfold updateSubscriptionStatus
        dsimp only
        rw [hcheck]
        simp
      rw [hrw]
      exact hinv

/-- C1 witness: with a stored Active subscription for the token-resolved
user, a second activation fails with the duplicate-entry rejection, the
database is unchanged, and the invariant still holds afterwards. -/
theorem activateSubscription_conflict_witness :
    (activateSubscription (fun t => if t == "tok" then some ⟨"u1", "a@x.com", "user"⟩ else none)
        "tok" "Expert" "s2" ⟨2025, 5, 10, 0, 0, 0⟩
        ⟨[], [], [⟨"s1", "u1", "Pro", "Active", "2025-07-10 00:00:00"⟩], [], [], []⟩
      = (⟨[], [], [⟨"s1", "u1", "Pro", "Active", "2025-07-10 00:00:00"⟩], [], [], []⟩, .error .dupEntry))
    ∧ ActiveUnique (activateSubscription (fun t => if t == "tok" then some ⟨"u1", "a@x.com", "user"⟩ else none)
        "tok" "Expert" "s2" ⟨2025, 5, 10, 0, 0, 0⟩
        ⟨[], [], [⟨"s1", "u1", "Pro", "Active", "2025-07-10 00:00:00"⟩], [], [], []⟩).1.subscriptions
    ∧ ActiveUnique ((updateSubscriptionStatus
        ⟨[], [], [⟨"s1", "u1", "Pro", "Active", "2025-07-10 00:00:00"⟩], [], [], []⟩
        "s1" "Cancelled").1).subscriptions := by
  have h := activateSubscription_conflict
    (fun t => if t == "tok" then some ⟨"u1", "a@x.com", "user"⟩ else none)
    "tok" "Expert" "s2" ⟨2025, 5, 10, 0, 0, 0⟩ ⟨"u1", "a@x.com", "user"⟩
    ⟨[], [], [⟨"s1", "u1", "Pro", "Active", "2025-07-10 00:00:00"⟩], [], [], []⟩
    rfl (by decide)
  exact ⟨h.1 (by decide), h.2.1 (by decide), h.2.2 (by decide) "s1" "Cancelled"⟩

/-- Pairwise distinctness of the subscription primary keys (the PRIMARY
KEY of the subscriptions table). -/
def IdsUnique (l : List SubRow) : Prop := l.Pairwise (fun a b => a.id ≠ b.id)

instance (l : List SubRow) : Decidable (IdsUnique l) := by
  unfold IdsUnique
  infer_instance

/-- C2 counterexample: subscription s1 belongs to the requesting user u1
but has status Inactive; the claim says cancelSubscription flips an owned
subscription to Cancelled, yet the call fails with the
not-found-or-access-denied error and leaves the database — in particular
the Inactive status — unchanged, because the ownership check only matches
the Active subscription of the requester. -/
theorem cancelSubscription_owned_inactive_cex :
    ((⟨"s1", "u1", "Pro", "Inactive", "rd"⟩ : SubRow) ∈
      (⟨[⟨"u1", "a@x", "h", "A", "user", "Pro", "Active"⟩], [], [⟨"s1", "u1", "Pro", "Inactive", "rd"⟩], [], [], []⟩ : Db).subscriptions)
    ∧ cancelSubscription (fun t => if t == "tok" then some ⟨"u1", "a@x", "user"⟩ else none) "tok" "s1"
        ⟨[⟨"u1", "a@x", "h", "A", "user", "Pro", "Active"⟩], [], [⟨"s1", "u1", "Pro", "Inactive", "rd"⟩], [], [], []⟩
      = (⟨[⟨"u1", "a@x", "h", "A", "user", "Pro", "Active"⟩], [], [⟨"s1", "u1", "Pro", "Inactive", "rd"⟩], [], [], []⟩,
         .error .notFoundOrDenied) :=
  ⟨List.mem_singleton.mpr rfl, rfl⟩

/-- C2 (amended): cancelSubscription fails with the
not-found-or-access-denied error and leaves the database unchanged
whenever the addressed subscription is not the Active subscription of the
requesting user — in particular whenever it belongs to another user
(stated under primary-key distinctness); when the addressed id is exactly
the Active subscription of the requester, and flipping it does not collide
with another row of the requester under the (user_id, status) unique key,
the call succeeds, flips that status to Cancelled and resets the plan of
the requester to Starter. -/
theorem cancelSubscription_ownership (vj : String → Option JwtPayload)
    (token sid : String) (p : JwtPayload) (db : Db)
    (hvj : vj token = some p) (htok : token ≠ "") :
    (IdsUnique db.subscriptions →
      ∀ r ∈ db.subscriptions, r.id = sid → r.user_id ≠ p.userId →
        cancelSubscription vj token sid db = (db, .error .notFoundOrDenied))
    ∧ (∀ s, getSubscription db p.userId = some s → s.id = sid →
        noDupUserStatus (db.subscriptions.map (fun x => if x.id == sid then { x with status := "Cancelled" } else x)) = true →
        (cancelSubscription vj token sid db).2 = .ok ()
        ∧ (cancelSubscription vj token sid db).1.subscriptions
            = db.subscriptions.map (fun x => if x.id == sid then { x with status := "Cancelled" } else x)
        ∧ (cancelSubscription vj token sid db).1.users
            = db.users.map (fun u => if u.id == p.userId then { u with plan := "Starter" } else u)) := by
  have htok' : (token == "") = false := by
    simp [htok]
  constructor
  · intro hids r hr hrid hruid
    cases hs : getSubscription db p.userId with
    | none => simp [cancelSubscription, getCurrentUserId, htok', hvj, hs]
    | some s =>
      have hneq : s.id ≠ sid := by
        unfold getSubscription at hs
        obtain ⟨t, ht, hts⟩ := Option.map_eq_some'.mp hs
        have htmem := List.mem_of_find?_eq_some ht
        have htpred := List.find?_some ht
        simp only [Bool.and_eq_true, beq_iff_eq] at htpred
        have htr : t ≠ r := fun he => hruid (he ▸ htpred.1)
        have hsymm : Symmetric (fun a b : SubRow => a.id ≠ b.id) := fun _ _ h => h.symm
        have := hids.forall hsymm htmem hr htr
        rw [← hts, ← hrid]
        exact this
      have hbne : (s.id != sid) = true := bne_iff_ne.mpr hneq
      simp [cancelSubscription, getCurrentUserId, htok', hvj, hs, hbne]
  · intro s hs hsid hnodup
    have hbne : (s.id != sid) = false := by
      simp [hsid]
    have hup : updateSubscriptionStatus db sid "Cancelled" =
        ({ db with subscriptions := db.subscriptions.map (fun x => if x.id == sid then { x with status := "Cancelled" } else x) }, .ok ()) := by
      unfold updateSubscriptionStatus
      dsimp only
      rw [hnodup]
      simp
    refine ⟨?_, ?_, ?_⟩ <;>
      simp [cancelSubscription, getCurrentUserId, htok', hvj, hs, hbne, hup]

/-- C2 witness: cancelling the Active subscription of the requester
succeeds, flips its status to Cancelled and resets the plan of the
requester to Starter; and cancelling a subscription owned by another user
fails with the database unchanged. -/
theorem cancelSubscription_ownership_witness :
    ((cancelSubscription (fun t => if t == "tok" then some ⟨"u1", "a@x", "user"⟩ else none) "tok" "s1"
        ⟨[⟨"u1", "a@x", "h", "A", "user", "Pro", "Active"⟩], [], [⟨"s1", "u1", "Pro", "Active", "rd"⟩], [], [], []⟩).1.subscriptions
      = [⟨"s1", "u1", "Pro", "Cancelled", "rd"⟩])
    ∧ ((cancelSubscription (fun t => if t == "tok" then some ⟨"u1", "a@x", "user"⟩ else none) "tok" "s1"
        ⟨[⟨"u1", "a@x", "h", "A", "user", "Pro", "Active"⟩], [], [⟨"s1", "u1", "Pro", "Active", "rd"⟩], [], [], []⟩).1.users
      = [⟨"u1", "a@x", "h", "A", "user", "Starter", "Active"⟩])
    ∧ (cancelSubscription (fun t => if t == "tok" then some ⟨"u2", "b@x", "user"⟩ else none) "tok" "s1"
        ⟨[], [], [⟨"s1", "u1", "Pro", "Active", "rd"⟩], [], [], []⟩
      = (⟨[], [], [⟨"s1", "u1", "Pro", "Active", "rd"⟩], [], [], []⟩, .error .notFoundOrDenied)) := by
  have hOwn := (cancelSubscription_ownership
    (fun t => if t == "tok" then some ⟨"u1", "a@x", "user"⟩ else none) "tok" "s1"
    ⟨"u1", "a@x", "user"⟩
    ⟨[⟨"u1", "a@x", "h", "A", "user", "Pro", "Active"⟩], [], [⟨"s1", "u1", "Pro", "Active", "rd"⟩], [], [], []⟩
    rfl (by decide)).2 ⟨"s1", "Pro", "Active", "rd"⟩ rfl rfl (by decide)
  have hOther := (cancelSubscription_ownership
    (fun t => if t == "tok" then some ⟨"u2", "b@x", "user"⟩ else none) "tok" "s1"
    ⟨"u2", "b@x", "user"⟩
    ⟨[], [], [⟨"s1", "u1", "Pro", "Active", "rd"⟩], [], [], []⟩
    rfl (by decide)).1 (by decide) ⟨"s1", "u1", "Pro", "Active", "rd"⟩
    (List.mem_singleton.mpr rfl) rfl (by decide)
  exact ⟨by rw [hOwn.2.1]; rfl, by rw [hOwn.2.2]; rfl, hOther⟩

@[simp] theorem logAuditAction_packages (db : Db) (u : Option String)
    (a : String) (t e : Option String) :
    (logAuditAction db u a t e).packages = db.packages := rfl

/-- C8: creating an account with an email that already exists fails with
the duplicate-entry error surfaced as "Email already exists" and persists
no new row, so a table holding exactly one account with that email still
holds exactly one afterwards; with a fresh email (and fresh id) the row is
persisted with status Active and the returned public profile — a record
type with no password-hash field — is exactly (id, email, name, user,
plan, Active). -/
theorem createUser_duplicate_email (hf : String → String) (db : Db)
    (freshId email password name : String) (plan? : Option String) :
    (db.users.any (fun u => u.email == email) = true →
      createUser hf db freshId email password name plan? = (db, .error .emailExists))
    ∧ ((db.users.filter (fun u => u.email == email)).length = 1 →
      (((createUser hf db freshId email password name plan?).1.users.filter (fun u => u.email == email)).length = 1))
    ∧ (db.users.any (fun u => u.id == freshId || u.email == email) = false →
      createUser hf db freshId email password name plan? =
        ({ db with users := db.users ++ [⟨freshId, email, hf password, name, "user", plan?.getD "Starter", "Active"⟩] },
         .ok ⟨freshId, email, name, "user", plan?.getD "Starter", "Active"⟩)) := by
  have hdup : db.users.any (fun u => u.email == email) = true →
      createUser hf db freshId email password name plan? = (db, .error .emailExists) := by
    intro h
    have hany : db.users.any (fun u => u.id == freshId || u.email == email) = true := by
      rw [List.any_eq_true] at h ⊢
      obtain ⟨u, hu, hpu⟩ := h
      exact ⟨u, hu, by rw [hpu]; simp⟩
    simp [createUser, hany]
  refine ⟨hdup, ?_, ?_⟩
  · intro hone
    have hmem : db.users.any (fun u => u.email == email) = true := by
      obtain ⟨a, ha⟩ := List.length_eq_one.mp hone
      have : a ∈ db.users.filter (fun u => u.email == email) := by
        rw [ha]
        exact List.mem_singleton.mpr rfl
      rw [List.mem_filter] at this
      rw [List.any_eq_true]
      exact ⟨a, this.1, this.2⟩
    rw [hdup hmem]
    exact hone
  · intro hfresh
    simp [createUser, hfresh]

/-- C8 witness: a duplicate email is rejected leaving one matching row,
and a fresh email persists an Active row and returns the hash-free public
profile. -/
theorem createUser_duplicate_email_witness :
    (createUser (fun s => s ++ "#h") ⟨[⟨"u1", "a@x.com", "old#h", "A", "user", "Pro", "Active"⟩], [], [], [], [], []⟩
        "u2" "a@x.com" "pw123456" "B" none
      = (⟨[⟨"u1", "a@x.com", "old#h", "A", "user", "Pro", "Active"⟩], [], [], [], [], []⟩, .error .emailExists))
    ∧ (createUser (fun s => s ++ "#h") ⟨[⟨"u1", "a@x.com", "old#h", "A", "user", "Pro", "Active"⟩], [], [], [], [], []⟩
        "u2" "b@x.com" "pw123456" "B" none
      = (⟨[⟨"u1", "a@x.com", "old#h", "A", "user", "Pro", "Active"⟩, ⟨"u2", "b@x.com", "pw123456#h", "B", "user", "Starter", "Active"⟩], [], [], [], [], []⟩,
         .ok ⟨"u2", "b@x.com", "B", "user", "Starter", "Active"⟩)) := by
  constructor
  · exact (createUser_duplicate_email (fun s => s ++ "#h") _ "u2" "a@x.com" "pw123456" "B" none).1 (by decide)
  · have h := (createUser_duplicate_email (fun s => s ++ "#h")
      ⟨[⟨"u1", "a@x.com", "old#h", "A", "user", "Pro", "Active"⟩], [], [], [], [], []⟩
      "u2" "b@x.com" "pw123456" "B" none).2.2 (by decide)
    rw [h]
    rfl

/-- C10: every row persisted by createUser beyond the pre-existing ones
carries role user, and the returned profile carries role user, for all
caller-supplied input (the input record of this revision has no role field
at all) — admin or superadmin accounts cannot be created through
createUser. -/
theorem createUser_role_pinned (hf : String → String) (db : Db)
    (freshId email password name : String) (plan? : Option String) :
    (∀ u, u ∈ (createUser hf db freshId email password name plan?).1.users →
      u ∈ db.users ∨ u.role = "user")
    ∧ (∀ pub, (createUser hf db freshId email password name plan?).2 = .ok pub →
      pub.role = "user") := by
  cases hc : db.users.any (fun u => u.id == freshId || u.email == email) with
  | true =>
    constructor
    · intro u hu
      left
      simpa [createUser, hc] using hu
    · intro pub h
      simp [createUser, hc] at h
  | false =>
    constructor
    · intro u hu
      simp only [createUser, hc, Bool.false_eq_true, if_false, List.mem_append,
        List.mem_singleton] at hu
      cases hu with
      | inl h => exact .inl h
      | inr h => exact .inr (by rw [h])
    · intro pub h
      simp only [createUser, hc, Bool.false_eq_true, if_false, Except.ok.injEq] at h
      rw [← h]

/-- C10 witness: the row persisted for a concrete signup carries role
user and the returned profile carries role user. -/
theorem createUser_role_pinned_witness :
    ((⟨"u2", "b@x.com", "pw123456#h", "B", "user", "Starter", "Active"⟩ : UserRow) ∈ ([] : List UserRow)
      ∨ (⟨"u2", "b@x.com", "pw123456#h", "B", "user", "Starter", "Active"⟩ : UserRow).role = "user")
    ∧ (⟨"u2", "b@x.com", "B", "user", "Starter", "Active"⟩ : UserPub).role = "user" := by
  constructor
  · exact (createUser_role_pinned (fun s => s ++ "#h") ⟨[], [], [], [], [], []⟩
      "u2" "b@x.com" "pw123456" "B" none).1
      ⟨"u2", "b@x.com", "pw123456#h", "B", "user", "Starter", "Active"⟩ (by decide)
  · exact (createUser_role_pinned (fun s => s ++ "#h") ⟨[], [], [], [], [], []⟩
      "u2" "b@x.com" "pw123456" "B" none).2
      ⟨"u2", "b@x.com", "B", "user", "Starter", "Active"⟩ rfl

/-- C9 counterexample: a stored features value that is the empty string is
not valid JSON (JSON.parse of an empty string throws, so the parse
parameter is the everywhere-failing function), yet getPackageById returns
the empty feature array, not the one-element array holding the raw stored
value: the falsy-string guard short-circuits before the parse. -/
theorem packages_empty_string_features_cex :
    getPackageById (fun _ => none)
        ⟨[], [], [], [], [⟨"p1", "N", none, 0, "USD", some "", true, 0, none, 0⟩], []⟩ "p1"
      = some ⟨"p1", "N", none, 0, "USD", .arr [], true, 0, none, 0⟩
    ∧ Jx.arr [] ≠ Jx.arr [.str ""] := by
  refine ⟨rfl, ?_⟩
  intro h
  simp at h

/-- C9 (amended): getAllPackages and getPackageById are total — the parse
failure is caught, never rethrown — and for every package whose stored
features value is non-empty and not valid JSON (the parse fails), the
returned package carries the one-element feature array holding the raw
stored value; it appears as such in the getAllPackages listing and in the
getPackageById result.  A stored empty string, being falsy, instead yields
the empty array. -/
theorem packages_malformed_raw_fallback (parse : String → Option Jx) (db : Db)
    (p : PackageRow) (raw : String)
    (hp : p ∈ db.packages) (hraw : p.features = some raw) (hne : raw ≠ "")
    (hbad : parse raw = none) :
    (decoratePackage parse p).features = .arr [.str raw]
    ∧ decoratePackage parse p ∈ getAllPackages parse false db
    ∧ (db.packages.find? (fun q => q.id == p.id) = some p →
        getPackageById parse db p.id = some (decoratePackage parse p)) := by
  have hne' : (raw == "") = false := by
    simp [hne]
  refine ⟨?_, ?_, ?_⟩
  · simp [decoratePackage, decodeFeatures, hraw, hne', hbad]
  · exact List.mem_map_of_mem _ (List.mem_mergeSort.mpr hp)
  · intro hfind
    simp [getPackageById, hfind]

/-- C9 witness: a package whose stored features column holds a non-JSON
string is returned by getPackageById with the one-element feature array
holding that raw string, and the same entry appears in getAllPackages. -/
theorem packages_malformed_raw_fallback_witness :
    ((decoratePackage (fun _ => none) ⟨"p1", "N", none, 0, "USD", some "oops", true, 0, none, 0⟩).features
        = .arr [.str "oops"])
    ∧ decoratePackage (fun _ => none) ⟨"p1", "N", none, 0, "USD", some "oops", true, 0, none, 0⟩ ∈
        getAllPackages (fun _ => none)
          false ⟨[], [], [], [], [⟨"p1", "N", none, 0, "USD", some "oops", true, 0, none, 0⟩], []⟩
    ∧ getPackageById (fun _ => none)
        ⟨[], [], [], [], [⟨"p1", "N", none, 0, "USD", some "oops", true, 0, none, 0⟩], []⟩ "p1"
      = some (decoratePackage (fun _ => none) ⟨"p1", "N", none, 0, "USD", some "oops", true, 0, none, 0⟩) := by
  have h := packages_malformed_raw_fallback (fun _ => none)
    ⟨[], [], [], [], [⟨"p1", "N", none, 0, "USD", some "oops", true, 0, none, 0⟩], []⟩
    ⟨"p1", "N", none, 0, "USD", some "oops", true, 0, none, 0⟩ "oops"
    (List.mem_singleton.mpr rfl) rfl (by decide) rfl
  exact ⟨h.1, h.2.1, h.2.2 rfl⟩

/-- C7: with an admin token and three fresh distinct ids, seeding into an
empty catalog creates exactly the three default package rows (active, with
their stringified feature lists) and succeeds; running the action again
when the catalog is non-empty fails with the already-seeded error
(carrying the current row count) before any insert, leaving the database
unchanged; and the standalone maintenance script form is an idempotent
no-op on a non-empty catalog: it returns normally and changes nothing. -/
theorem seedDefaultPackages_spec (vj : String → Option JwtPayload)
    (token i1 i2 i3 : String) (p : JwtPayload) (now : Int) (db : Db)
    (hvj : vj token = some p) (htok : token ≠ "")
    (hrole : p.role = "admin" ∨ p.role = "superadmin")
    (h12 : i1 ≠ i2) (h13 : i1 ≠ i3) (h23 : i2 ≠ i3) :
    (db.packages = [] →
      (seedDefaultPackagesAction vj token i1 i2 i3 now db).1.packages =
        [⟨i1, "Desktop Software", some "Manage Yourself - Desktop Software for DIY traders with Community Access", 4999, "₹", some (stringifyStringList ["Desktop Software", "DIY", "Community Access", "Manage Yourself", "Local Execution"]), true, 0, none, now⟩,
         ⟨i2, "Auto Server", some "Fully Automated Server based execution for hands-free trading", 5999, "₹", some (stringifyStringList ["Fully Automated", "Server based Execution", "Priority Support", "24/7 Monitoring", "Execution Management"]), true, 1, none, now⟩,
         ⟨i3, "Hybrid Plan", some "Combination of Desktop Software and Server Execution", 7999, "₹", some (stringifyStringList ["Desktop Software", "Server Execution", "Advanced Analytics", "Priority Support", "API Access", "Custom Strategies"]), true, 2, none, now⟩]
      ∧ (seedDefaultPackagesAction vj token i1 i2 i3 now db).2 = .ok ())
    ∧ (db.packages ≠ [] →
      seedDefaultPackagesAction vj token i1 i2 i3 now db =
        (db, .error (.alreadySeeded db.packages.length)))
    ∧ (db.packages ≠ [] → seedPackagesScript i1 i2 i3 now db = (db, .ok ())) := by
  have htok' : (token == "") = false := by
    simp [htok]
  have hadmin : verifyAdminRole vj token = .ok p.userId := by
    unfold verifyAdminRole
    rw [htok']
    rcases hrole with h | h <;> simp [hvj, h]
  refine ⟨?_, ?_, ?_⟩
  · intro hpk
    constructor
    · simp [seedDefaultPackagesAction, hadmin, hpk, seedLoop, defaultPackages, createPackage,
        h12, h13, h23]
    · simp [seedDefaultPackagesAction, hadmin, hpk, seedLoop, defaultPackages, createPackage,
        h12, h13, h23]
  · intro hne
    simp [seedDefaultPackagesAction, hadmin, List.length_pos.mpr hne]
  · intro hne
    simp [seedPackagesScript, List.length_pos.mpr hne]

/-- C7 witness: a concrete admin-token seeding of an empty catalog creates
the three default rows, and running the action or the script against the
non-empty catalog that results rejects or skips without change. -/
theorem seedDefaultPackages_spec_witness :
    ((seedDefaultPackagesAction (fun t => if t == "tok" then some ⟨"a1", "a@x", "admin"⟩ else none)
        "tok" "id1" "id2" "id3" 7 ⟨[], [], [], [], [], []⟩).2 = .ok ())
    ∧ ((seedDefaultPackagesAction (fun t => if t == "tok" then some ⟨"a1", "a@x", "admin"⟩ else none)
        "tok" "id1" "id2" "id3" 7
        ⟨[], [], [], [], [⟨"q1", "Old", none, 1, "USD", none, true, 0, none, 0⟩], []⟩)
      = (⟨[], [], [], [], [⟨"q1", "Old", none, 1, "USD", none, true, 0, none, 0⟩], []⟩,
         .error (.alreadySeeded 1)))
    ∧ (seedPackagesScript "id1" "id2" "id3" 7
        ⟨[], [], [], [], [⟨"q1", "Old", none, 1, "USD", none, true, 0, none, 0⟩], []⟩
      = (⟨[], [], [], [], [⟨"q1", "Old", none, 1, "USD", none, true, 0, none, 0⟩], []⟩, .ok ())) := by
  have h1 := seedDefaultPackages_spec (fun t => if t == "tok" then some ⟨"a1", "a@x", "admin"⟩ else none)
    "tok" "id1" "id2" "id3" ⟨"a1", "a@x", "admin"⟩ 7 ⟨[], [], [], [], [], []⟩
    rfl (by decide) (Or.inl rfl) (by decide) (by decide) (by decide)
  have h2 := seedDefaultPackages_spec (fun t => if t == "tok" then some ⟨"a1", "a@x", "admin"⟩ else none)
    "tok" "id1" "id2" "id3" ⟨"a1", "a@x", "admin"⟩ 7
    ⟨[], [], [], [], [⟨"q1", "Old", none, 1, "USD", none, true, 0, none, 0⟩], []⟩
    rfl (by decide) (Or.inl rfl) (by decide) (by decide) (by decide)
  exact ⟨(h1.1 rfl).2, h2.2.1 (by decide), h2.2.2 (by decide)⟩

end Quantum
